import Mathlib

/-!
Shallow embedding of the Iroh home-management core (DTMF state machine in
dtmf_state_machine.py, phone event pipeline in phone_manager.py, timer
subsystem in timer_manager.py) with verified properties.

Conventions of the embedding:
* Python dicts keyed by strings become association lists in insertion order.
* asyncio tasks are tracked explicitly: each armed dwell-timeout task gets a
  fresh numeric id, and the machine carries the list of armed and not yet
  cancelled-or-fired task ids.
* uuid4 identifiers are modelled as draws from a fresh-seed counter, so a
  Timer id is a Nat.
* External callables (regex matching via the re module, registered handler
  callbacks, audio output) are parameters of the semantics; side effects are
  recorded in an explicit trace.
* Fallible code returns Except; a caught Python exception corresponds to
  consuming the .error branch.

Definitions come first, theorems afterwards.
-/

namespace Iroh

/-- A runtime value passed to a handler callback: either the raw buffered
string or the integer produced by a transformer. -/
inductive Val where
  | str (s : String)
  | int (n : Int)
deriving DecidableEq, Repr

/-- Did the Except computation succeed. -/
def exOk {α : Type} (e : Except String α) : Bool :=
  match e with
  | Except.ok _ => true
  | Except.error _ => false

instance {α β : Type} [DecidableEq α] [DecidableEq β] : DecidableEq (Except α β) :=
  fun x y =>
  match x, y with
  | Except.ok a, Except.ok b =>
    match decEq a b with
    | isTrue h => isTrue (h ▸ rfl)
    | isFalse h => isFalse (fun he => h (Except.ok.inj he))
  | Except.error a, Except.error b =>
    match decEq a b with
    | isTrue h => isTrue (h ▸ rfl)
    | isFalse h => isFalse (fun he => h (Except.error.inj he))
  | Except.ok _, Except.error _ => isFalse (fun he => Except.noConfusion he)
  | Except.error _, Except.ok _ => isFalse (fun he => Except.noConfusion he)

/-- Model of the Python int builtin restricted to the digit strings a DTMF
buffer can contain: a nonempty all-digit string parses to its base-10 value,
anything else raises ValueError. -/
def pyInt (s : String) : Except String Int :=
  if s.data ≠ [] ∧ s.data.all Char.isDigit then
    Except.ok (Int.ofNat (s.data.foldl (fun n c => 10 * n + (c.toNat - 48)) 0))
  else Except.error "invalid literal for int"

namespace Timers

/-- Trace events emitted by the timer subsystem (audio output and log lines),
from timer_manager.py. -/
inductive TEv where
  | sleep
  | speakOneMinute
  | speakComplete (name : String)
  | speakCancelled (name : String)
  | speakSetting (minutes : Int)
  | taskCancel (id : Nat)
  | logCancelled (id : Nat)
deriving DecidableEq, Repr

/-- Timer record, from timer_manager.py class Timer. The uuid4 id is modelled
as a Nat seed; the owning asyncio task is modelled by the pair
hasTask/taskDone (task exists / task has finished). -/
structure Timer where
  id : Nat
  name : String
  duration : Nat
  start_time : Nat
  end_time : Nat
  remaining : Nat
  completed : Bool
  cancelled : Bool
  hasTask : Bool
  taskDone : Bool
deriving DecidableEq, Repr

/-- Build a Timer as Timer.__init__ does, with the id drawn from the fresh
seed counter standing in for uuid4. -/
def mkTimer (seed : Nat) (duration : Nat) (name : Option String) (now : Nat) : Timer :=
  { id := seed
    name := name.getD ("Timer_" ++ toString seed)
    duration := duration
    start_time := now
    end_time := now + duration
    remaining := duration
    completed := false
    cancelled := false
    hasTask := true
    taskDone := false }

/-- TimerManager state: the active_timers dict as an association list keyed by
timer id, plus the fresh-seed counter for uuid generation. -/
structure TimerManager where
  active_timers : List (Nat × Timer)
  nextSeed : Nat
deriving DecidableEq, Repr

/-- Dict lookup in active_timers. -/
def lookupTimer (l : List (Nat × Timer)) (tid : Nat) : Option Timer :=
  match l with
  | [] => none
  | (k, t) :: rest => if k = tid then some t else lookupTimer rest tid

/-- TimerManager.quick_timer: validates 1 <= minutes <= 60 (raising TimerError
otherwise), creates the Timer, starts its countdown task, stores it and
speaks a confirmation. -/
def quick_timer (tm : TimerManager) (now : Nat) (minutes : Int) :
    Except String (TimerManager × Timer × List TEv) :=
  if 1 ≤ minutes ∧ minutes ≤ 60 then
    let duration := (minutes * 60).toNat
    let timer := mkTimer tm.nextSeed duration
      (some ("QuickTimer_" ++ toString minutes ++ "min")) now
    Except.ok
      ({ active_timers := tm.active_timers ++ [(timer.id, timer)]
         nextSeed := tm.nextSeed + 1 },
       timer,
       [TEv.speakSetting minutes])
  else
    Except.error "Failed to create quick timer: Quick timer duration must be between 1 and 60 minutes"

/-- TimerManager.create_timer: no validation, creates and stores the timer. -/
def create_timer (tm : TimerManager) (now : Nat) (duration : Nat) (name : Option String) :
    Except String (TimerManager × Timer × List TEv) :=
  let timer := mkTimer tm.nextSeed duration name now
  Except.ok
    ({ active_timers := tm.active_timers ++ [(timer.id, timer)]
       nextSeed := tm.nextSeed + 1 },
     timer,
     [])

/-- Update the entry for a timer id in the active_timers dict. -/
def updateTimer (l : List (Nat × Timer)) (tid : Nat) (t : Timer) : List (Nat × Timer) :=
  match l with
  | [] => []
  | (k, u) :: rest => if k = tid then (k, t) :: rest else (k, u) :: updateTimer rest tid t

/-- TimerManager.cancel_timer: TimerError for an unknown id; when the timer
has a task that is not yet done, requests task cancellation, sets the
cancelled flag and speaks the cancellation; otherwise (task already finished)
it only logs and returns with the manager unchanged. -/
def cancel_timer (tm : TimerManager) (tid : Nat) : Except String (TimerManager × List TEv) :=
  match lookupTimer tm.active_timers tid with
  | none => Except.error "Failed to cancel timer: Timer not found"
  | some timer =>
    if timer.hasTask ∧ timer.taskDone = false then
      let timer1 := { timer with cancelled := true }
      Except.ok
        ({ tm with active_timers := updateTimer tm.active_timers tid timer1 },
         [TEv.taskCancel tid, TEv.speakCancelled timer.name, TEv.logCancelled tid])
    else
      Except.ok (tm, [TEv.logCancelled tid])

/-- One-second ticks of TimerManager._run_timer for a countdown that is never
cancelled: each iteration sleeps one second, decrements remaining, and speaks
the one-minute checkpoint exactly when remaining has just become 60. The
argument is the remaining time at the top of the loop. -/
def run_loop : Nat → List TEv
  | 0 => []
  | n + 1 => TEv.sleep :: ((if n = 60 then [TEv.speakOneMinute] else []) ++ run_loop n)

/-- TimerManager._run_timer on a timer that is never cancelled during the
run: counts down to zero, marks the timer completed and speaks the completion
message. A timer already cancelled skips the loop and the completion
branch. -/
def run_timer (t : Timer) : Timer × List TEv :=
  if t.cancelled then ({ t with taskDone := true }, [])
  else
    ({ t with remaining := 0, completed := true, taskDone := true },
     run_loop t.remaining ++ [TEv.speakComplete t.name])

/-- Count occurrences of a trace event. -/
def countEv (e : TEv) : List TEv → Nat
  | [] => 0
  | x :: xs => (if x = e then 1 else 0) + countEv e xs

end Timers

namespace DTMF

/-- A DTMF input event, from dtmf_state_machine.py DTMFEvent (the source
field named type becomes etype). -/
structure DTMFEvent where
  etype : String
  value : String
  timestamp : Nat
deriving DecidableEq, Repr

/-- A command handler within a state, from dtmf_state_machine.py
StateHandler. The action dict is represented by the three keys the engine
reads: handler, transform and args. -/
structure StateHandler where
  htype : String
  pattern : String
  description : String
  actionHandler : Option String
  actionTransform : Option String
  actionArgs : List (String × String)
  terminator : Option String
  next_state : Option String
deriving DecidableEq, Repr

/-- A state of the machine, from dtmf_state_machine.py State. -/
structure State where
  name : String
  description : String
  handlers : List StateHandler
  timeout : Nat
  on_enter : List String
  on_timeout : Option String
  on_invalid : Option String
deriving DecidableEq, Repr

/-- Runtime machine state, from dtmf_state_machine.py DTMFStateMachine. The
asyncio timeout task handle becomes the id in timeout_task; pendingTasks
lists the ids of dwell-timeout tasks that have been created and are neither
cancelled nor fired, and nextTaskId supplies fresh ids. armedFor records the
duration passed to the most recently created timeout task. -/
structure DTMFStateMachine where
  states : List (String × State)
  current_state : Option State
  buffer : List DTMFEvent
  timeout_task : Option Nat
  pendingTasks : List Nat
  nextTaskId : Nat
  armedFor : Nat
deriving DecidableEq, Repr

/-- The machine right after __init__ with a successfully loaded states table:
no current state, empty buffer, no timeout task. -/
def initMachine (states : List (String × State)) : DTMFStateMachine :=
  { states := states
    current_state := none
    buffer := []
    timeout_task := none
    pendingTasks := []
    nextTaskId := 0
    armedFor := 0 }

/-- External behaviour the engine calls into: the re module match on an
anchored pattern, the registries of handler callbacks and transformers
(filled by register_handler and register_transformer), and whether a given
callback invocation raises. -/
structure Env where
  rmatch : String → String → Bool
  handlerRegistered : String → Bool
  handlerThrows : String → Val → Bool
  onEnterThrows : String → Bool
  transformers : String → Option (String → Except String Int)

/-- Trace events (logging and handler invocations) emitted by the engine. -/
inductive Ev where
  | logNoCurrentState
  | logInvalidState (name : String)
  | logHandlerNotFound (name : String)
  | logCheckError (msg : String)
  | logOnEnterError (name : String)
  | logTransitioned (name : String)
  | enterInvoked (name : String)
  | invoked (name : String) (arg : Val) (args : List (String × String))
deriving DecidableEq, Repr

/-- Python truthiness of an optional string field: present and non-empty. -/
def truthy (o : Option String) : Bool :=
  match o with
  | none => false
  | some s => !s.isEmpty

/-- Dict lookup in the states table. -/
def lookupState (l : List (String × State)) (name : String) : Option State :=
  match l with
  | [] => none
  | (k, st) :: rest => if k = name then some st else lookupState rest name

/-- The concatenated buffer contents, as built by join over event values. -/
def bufferString (buf : List DTMFEvent) : String :=
  String.join (buf.map (fun e => e.value))

/-- Cancel the outstanding timeout task if there is one (the guarded
self.timeout_task.cancel() calls): the referenced task stops being pending;
cancelling an already finished task is a no-op on pendingTasks. -/
def cancelTimeout (m : DTMFStateMachine) : DTMFStateMachine :=
  match m.timeout_task with
  | some t => { m with pendingTasks := m.pendingTasks.erase t }
  | none => m

/-- Create a fresh _handle_timeout task for the given duration and store its
handle in timeout_task. -/
def armTimeout (m : DTMFStateMachine) (tmo : Nat) : DTMFStateMachine :=
  { m with
    timeout_task := some m.nextTaskId
    pendingTasks := m.pendingTasks ++ [m.nextTaskId]
    nextTaskId := m.nextTaskId + 1
    armedFor := tmo }

/-- Run the on_enter handler names of a state sequentially: unregistered
names are skipped silently, a raising handler is logged and the loop
continues. -/
def runOnEnter (env : Env) : List String → List Ev
  | [] => []
  | name :: rest =>
    (if env.handlerRegistered name then
      if env.onEnterThrows name then [Ev.enterInvoked name, Ev.logOnEnterError name]
      else [Ev.enterInvoked name]
    else []) ++ runOnEnter env rest

/-- DTMFStateMachine.transition_to: an unknown target is logged and ignored;
otherwise cancel any existing timeout, clear the buffer, set the new state,
arm the new dwell-timeout task, then run the on_enter handlers. -/
def transition_to (env : Env) (m : DTMFStateMachine) (state_name : String) :
    DTMFStateMachine × List Ev :=
  match lookupState m.states state_name with
  | none => (m, [Ev.logInvalidState state_name])
  | some st =>
    let m1 := cancelTimeout m
    let m2 := { m1 with buffer := [], current_state := some st }
    let m3 := armTimeout m2 st.timeout
    (m3, runOnEnter env st.on_enter ++ [Ev.logTransitioned state_name])

/-- DTMFStateMachine.start: transition into the initial state. -/
def start (env : Env) (m : DTMFStateMachine) : DTMFStateMachine × List Ev :=
  transition_to env m "initial"

/-- Invoke a registered handler callback; a raise is reported as the
exception message. -/
def callHandler (env : Env) (hn : String) (v : Val) (args : List (String × String)) :
    Option String × List Ev :=
  if env.handlerThrows hn v then (some "handler raised", [Ev.invoked hn v args])
  else (none, [Ev.invoked hn v args])

/-- The action-execution block of _check_handler_match (lines 209-222): no
action handler name means nothing to run; an unregistered handler name is
logged and skipped; a registered transform is applied first and its raise
aborts the block; an unregistered transform name is skipped silently and the
raw string is passed through. Returns the pending exception, if any, plus
the trace. -/
def execAction (env : Env) (h : StateHandler) (input1 : String) :
    Option String × List Ev :=
  match h.actionHandler with
  | none => (none, [])
  | some hn =>
    if env.handlerRegistered hn then
      match h.actionTransform with
      | some tn =>
        match env.transformers tn with
        | some f =>
          match f input1 with
          | Except.error msg => (some msg, [])
          | Except.ok v => callHandler env hn (Val.int v) h.actionArgs
        | none => callHandler env hn (Val.str input1) h.actionArgs
      | none => callHandler env hn (Val.str input1) h.actionArgs
    else (none, [Ev.logHandlerNotFound hn])

/-- DTMFStateMachine._check_handler_match: anchored pattern match against the
joined buffer, terminator check and stripping, action execution, then the
optional transition. Any exception inside is caught, logged and turned into
a False result (with the machine untouched, since every mutation happens
after the last possible raise). -/
def check_handler_match (env : Env) (m : DTMFStateMachine) (h : StateHandler) :
    Bool × DTMFStateMachine × List Ev :=
  let input0 := bufferString m.buffer
  if env.rmatch h.pattern input0 then
    let term := h.terminator.getD ""
    if truthy h.terminator && !(input0.endsWith term) then (false, m, [])
    else
      let input1 := if truthy h.terminator then input0.dropRight term.length else input0
      match execAction env h input1 with
      | (some msg, tr) => (false, m, tr ++ [Ev.logCheckError msg])
      | (none, tr) =>
        if truthy h.next_state then
          let r := transition_to env m (h.next_state.getD "")
          (true, r.1, tr ++ r.2)
        else (true, m, tr)
  else (false, m, [])

/-- The handler loop of handle_event: first match in declared order wins and
stops the scan. -/
def runHandlers (env : Env) :
    DTMFStateMachine → List StateHandler → Bool × DTMFStateMachine × List Ev
  | m, [] => (false, m, [])
  | m, h :: rest =>
    match check_handler_match env m h with
    | (true, m1, tr) => (true, m1, tr)
    | (false, m1, tr) =>
      let r := runHandlers env m1 rest
      (r.1, r.2.1, tr ++ r.2.2)

/-- The tail of handle_event after the handler scan (lines 172-182): on a
match, reset the dwell timeout of the now-current state (cancel the old
task, arm a new one); on no match, transition to the truthy on_invalid
target if the current state declares one. -/
def resetOrInvalid (env : Env) (r : Bool × DTMFStateMachine × List Ev) :
    DTMFStateMachine × List Ev :=
  match r with
  | (true, m2, tr) =>
    match m2.current_state with
    | some cur => (armTimeout (cancelTimeout m2) cur.timeout, tr)
    | none => (m2, tr)
  | (false, m2, tr) =>
    match m2.current_state with
    | some cur =>
      if truthy cur.on_invalid then
        let r2 := transition_to env m2 (cur.on_invalid.getD "")
        (r2.1, tr ++ r2.2)
      else (m2, tr)
    | none => (m2, tr)

/-- The buffer-append step of handle_event (lines 161-167). -/
def appendEvent (m : DTMFStateMachine) (event_type value : String) (now : Nat) :
    DTMFStateMachine :=
  { m with buffer := m.buffer ++ [{ etype := event_type, value := value, timestamp := now }] }

/-- DTMFStateMachine.handle_event: append the event to the buffer, scan the
handlers of the state that was current on entry, then reset the timeout or
take the invalid-input transition. -/
def handle_event (env : Env) (m : DTMFStateMachine) (event_type value : String) (now : Nat) :
    DTMFStateMachine × List Ev :=
  match m.current_state with
  | none => (m, [Ev.logNoCurrentState])
  | some st =>
    resetOrInvalid env (runHandlers env (appendEvent m event_type value now) st.handlers)

/-- The firing of a pending dwell-timeout task (_handle_timeout after its
sleep elapses uncancelled): the task stops being pending, and if the current
state declares a truthy on_timeout target the machine transitions there. A
cancelled or absent task does not fire. -/
def fire_timeout (env : Env) (m : DTMFStateMachine) : DTMFStateMachine × List Ev :=
  match m.timeout_task with
  | some t =>
    if t ∈ m.pendingTasks then
      let m1 := { m with pendingTasks := m.pendingTasks.erase t }
      match m1.current_state with
      | some st =>
        if truthy st.on_timeout then transition_to env m1 (st.on_timeout.getD "")
        else (m1, [])
      | none => (m1, [])
    else (m, [])
  | none => (m, [])

/-- One externally observable operation on a started engine. -/
inductive Op where
  | ev (event_type value : String) (now : Nat)
  | fire
  | trans (name : String)
deriving DecidableEq, Repr

/-- Apply one operation to the machine, discarding the trace. -/
def applyOp (env : Env) (m : DTMFStateMachine) : Op → DTMFStateMachine
  | Op.ev t v now => (handle_event env m t v now).1
  | Op.fire => (fire_timeout env m).1
  | Op.trans name => (transition_to env m name).1

/-- Apply a sequence of operations in order. -/
def applyOps (env : Env) (m : DTMFStateMachine) (ops : List Op) : DTMFStateMachine :=
  ops.foldl (applyOp env) m

/-- Timeout-task invariant: every pending dwell-timeout task is the one the
machine currently holds a handle to, and at most one is pending. -/
def TaskInv (m : DTMFStateMachine) : Prop :=
  (∀ id ∈ m.pendingTasks, m.timeout_task = some id) ∧ m.pendingTasks.length ≤ 1

end DTMF

namespace Phone

/-- A normalized phone event from the websocket stream, from
phone_manager.py handle_phone_event: the type field and the optional digit
(defaulting to the empty string). -/
structure PhoneEvent where
  etype : String
  digit : String
deriving DecidableEq, Repr

/-- Trace events of the pipeline layer. -/
inductive PEv where
  | logWarnOnHook
  | forwarded (event_type digit : String)
  | logUnknownEvent (etype : String)
  | logConnClosed
  | logDisconnected
  | logLoopError
  | backoffSleep (seconds : Nat)
deriving DecidableEq, Repr

/-- PhoneManager runtime state: hook tracking, the _running flag, the
websocket handle (as a connected flag) and the owned engine. -/
structure PhoneManager where
  off_hook : Bool
  running : Bool
  wsConnected : Bool
  dtmf_machine : DTMF.DTMFStateMachine
deriving DecidableEq, Repr

/-- The symbol-type classification of _handle_dtmf. -/
def classifyDigit (digit : String) : String :=
  if digit = "*" then "star" else if digit = "#" then "hash" else "digit"

/-- PhoneManager._handle_dtmf: a digit received while on hook is logged and
dropped; otherwise the digit is classified and forwarded to the engine. -/
def handle_dtmf (env : DTMF.Env) (pm : PhoneManager) (digit : String) (now : Nat) :
    PhoneManager × List PEv :=
  if pm.off_hook then
    let r := DTMF.handle_event env pm.dtmf_machine (classifyDigit digit) digit now
    ({ pm with dtmf_machine := r.1 }, [PEv.forwarded (classifyDigit digit) digit])
  else (pm, [PEv.logWarnOnHook])

/-- PhoneManager._handle_off_hook: mark the line active and start the
engine. -/
def handle_off_hook (env : DTMF.Env) (pm : PhoneManager) : PhoneManager × List PEv :=
  let pm1 := { pm with off_hook := true }
  let r := DTMF.start env pm1.dtmf_machine
  ({ pm1 with dtmf_machine := r.1 }, [])

/-- PhoneManager._handle_on_hook: mark the line inactive; the engine is left
untouched. -/
def handle_on_hook (pm : PhoneManager) : PhoneManager × List PEv :=
  ({ pm with off_hook := false }, [])

/-- PhoneManager.handle_phone_event: dispatch on the event type; unknown
types are logged. -/
def handle_phone_event (env : DTMF.Env) (pm : PhoneManager) (ev : PhoneEvent) (now : Nat) :
    PhoneManager × List PEv :=
  if ev.etype = "off_hook" then handle_off_hook env pm
  else if ev.etype = "on_hook" then handle_on_hook pm
  else if ev.etype = "dtmf" then handle_dtmf env pm ev.digit now
  else (pm, [PEv.logUnknownEvent ev.etype])

/-- One item produced by awaiting the websocket: a well-formed message, a
message whose handling raises in the loop body (for example bad json), or a
ConnectionClosed raise. -/
inductive StreamItem where
  | msg (ev : PhoneEvent)
  | badMsg
  | closed
deriving DecidableEq, Repr

/-- PhoneManager._event_loop over a script of stream items: while _running
and the websocket is up, receive the next item; a ConnectionClosed raise is
logged, the manager disconnects (clearing _running and the socket) and the
loop breaks; any other error in an iteration is logged, followed by a fixed
one-second sleep, and the loop continues on the same connection. -/
def event_loop (env : DTMF.Env) : PhoneManager → List StreamItem → PhoneManager × List PEv
  | pm, [] => (pm, [])
  | pm, item :: rest =>
    if pm.running && pm.wsConnected then
      match item with
      | StreamItem.closed =>
        ({ pm with running := false, wsConnected := false },
         [PEv.logConnClosed, PEv.logDisconnected])
      | StreamItem.badMsg =>
        let r := event_loop env pm rest
        (r.1, PEv.logLoopError :: PEv.backoffSleep 1 :: r.2)
      | StreamItem.msg ev =>
        let r1 := handle_phone_event env pm ev 0
        let r := event_loop env r1.1 rest
        (r.1, r1.2 ++ r.2)
    else (pm, [])

/-- PhoneManager._transform_minutes: int parsing plus the 1..999 range
check; failures raise ValueError. -/
def transform_minutes (digits : String) : Except String Int :=
  match pyInt digits with
  | Except.error e => Except.error e
  | Except.ok minutes =>
    if 1 ≤ minutes ∧ minutes ≤ 999 then Except.ok minutes
    else Except.error "Minutes must be between 1 and 999"

/-- PhoneManager._transform_temperature: int parsing plus the 60..85 range
check; failures raise ValueError. -/
def transform_temperature (digits : String) : Except String Int :=
  match pyInt digits with
  | Except.error e => Except.error e
  | Except.ok temp =>
    if 60 ≤ temp ∧ temp ≤ 85 then Except.ok temp
    else Except.error "Temperature must be between 60 and 85"

end Phone

namespace Config

/-- Raw yaml handler entry as read by _load_config: every key the code reads
with .get is optional; pattern is read with a plain subscript and its
absence raises KeyError. -/
structure HandlerConfig where
  htype : Option String
  pattern : Option String
  description : Option String
  actionHandler : Option String
  actionTransform : Option String
  actionArgs : List (String × String)
  terminator : Option String
  next_state : Option String
deriving DecidableEq, Repr

/-- Raw yaml state entry as read by _load_config. -/
structure StateConfig where
  description : Option String
  handlers : List HandlerConfig
  timeout : Option Nat
  on_enter : List String
  on_timeout : Option String
  on_invalid : Option String
deriving DecidableEq, Repr

/-- A parsed dtmf_commands.yml: the states mapping plus
settings.default_timeout. -/
structure ConfigFile where
  states : List (String × StateConfig)
  default_timeout : Nat
deriving DecidableEq, Repr

/-- Parse one handler entry: raises (KeyError) exactly when the pattern key
is missing; all other fields default. -/
def loadHandler (hc : HandlerConfig) : Except String DTMF.StateHandler :=
  match hc.pattern with
  | none => Except.error "KeyError: pattern"
  | some p =>
    Except.ok
      { htype := hc.htype.getD "pattern"
        pattern := p
        description := hc.description.getD ""
        actionHandler := hc.actionHandler
        actionTransform := hc.actionTransform
        actionArgs := hc.actionArgs
        terminator := hc.terminator
        next_state := hc.next_state }

/-- Parse the handler list of a state, propagating the first raise. -/
def loadHandlers : List HandlerConfig → Except String (List DTMF.StateHandler)
  | [] => Except.ok []
  | hc :: rest =>
    match loadHandler hc with
    | Except.error e => Except.error e
    | Except.ok h =>
      match loadHandlers rest with
      | Except.error e => Except.error e
      | Except.ok hs => Except.ok (h :: hs)

/-- Parse one state entry. Note that _load_config performs no validation of
the next_state / on_timeout / on_invalid targets: they are stored as-is. -/
def loadState (cfg : ConfigFile) (name : String) (sc : StateConfig) :
    Except String DTMF.State :=
  match loadHandlers sc.handlers with
  | Except.error e => Except.error e
  | Except.ok hs =>
    Except.ok
      { name := name
        description := sc.description.getD ""
        handlers := hs
        timeout := sc.timeout.getD cfg.default_timeout
        on_enter := sc.on_enter
        on_timeout := sc.on_timeout
        on_invalid := sc.on_invalid }

/-- Parse all states in declaration order, propagating the first raise. -/
def loadStates (cfg : ConfigFile) :
    List (String × StateConfig) → Except String (List (String × DTMF.State))
  | [] => Except.ok []
  | (name, sc) :: rest =>
    match loadState cfg name sc with
    | Except.error e => Except.error e
    | Except.ok st =>
      match loadStates cfg rest with
      | Except.error e => Except.error e
      | Except.ok sts => Except.ok ((name, st) :: sts)

/-- DTMFStateMachine._load_config on an already yaml-parsed file: build the
states table, re-raising any error. -/
def load_config (cfg : ConfigFile) : Except String (List (String × DTMF.State)) :=
  loadStates cfg cfg.states

/-- Written from the words of the specification (for comparison with
load_config, which is translated from the source): every next-state,
on-timeout and on-invalid reference names a declared state. -/
def allTargetsDeclared (cfg : ConfigFile) : Bool :=
  let declared := cfg.states.map Prod.fst
  cfg.states.all (fun p =>
    (match p.2.on_timeout with | some s => declared.contains s | none => true) &&
    (match p.2.on_invalid with | some s => declared.contains s | none => true) &&
    p.2.handlers.all (fun hc =>
      match hc.next_state with | some s => declared.contains s | none => true))

/-- Every handler entry carries a pattern key. -/
def everyHandlerHasPattern (cfg : ConfigFile) : Bool :=
  cfg.states.all (fun p => p.2.handlers.all (fun hc => hc.pattern.isSome))

end Config

namespace Ex

open DTMF Phone Config

/-- Environment in which no pattern ever matches and nothing is
registered. -/
def envNone : DTMF.Env :=
  { rmatch := fun _ _ => false
    handlerRegistered := fun _ => false
    handlerThrows := fun _ _ => false
    onEnterThrows := fun _ => false
    transformers := fun _ => none }

/-- A declared error state with no handlers. -/
def stError : DTMF.State :=
  { name := "error"
    description := "error prompt"
    handlers := []
    timeout := 3000
    on_enter := []
    on_timeout := some "initial"
    on_invalid := none }

/-- An initial state that declares the error state as its on_invalid
target. -/
def stInitInv : DTMF.State :=
  { name := "initial"
    description := "main menu"
    handlers := []
    timeout := 5000
    on_enter := []
    on_timeout := none
    on_invalid := some "error" }

/-- Started machine sitting in stInitInv with one armed timeout task. -/
def mInv : DTMF.DTMFStateMachine :=
  { states := [("initial", stInitInv), ("error", stError)]
    current_state := some stInitInv
    buffer := []
    timeout_task := some 0
    pendingTasks := [0]
    nextTaskId := 1
    armedFor := 5000 }

/-- A handler whose pattern will simply not match under envNone. -/
def hPlain : DTMF.StateHandler :=
  { htype := "pattern"
    pattern := "7"
    description := "unused"
    actionHandler := none
    actionTransform := none
    actionArgs := []
    terminator := none
    next_state := none }

/-- A state with one handler and no on_invalid target. -/
def stPlain : DTMF.State :=
  { name := "initial"
    description := "main menu"
    handlers := [hPlain]
    timeout := 5000
    on_enter := []
    on_timeout := none
    on_invalid := none }

/-- Started machine sitting in stPlain with one armed timeout task. -/
def mPlain : DTMF.DTMFStateMachine :=
  { states := [("initial", stPlain)]
    current_state := some stPlain
    buffer := []
    timeout_task := some 0
    pendingTasks := [0]
    nextTaskId := 1
    armedFor := 5000 }

/-- The two-digit temperature handler of the documented scenario. -/
def hTemp : DTMF.StateHandler :=
  { htype := "pattern"
    pattern := "[0-9][0-9]"
    description := "set temperature"
    actionHandler := some "home_assistant.set_temperature"
    actionTransform := some "temperature_from_digits"
    actionArgs := [("entity", "climate.home")]
    terminator := none
    next_state := none }

/-- Temperature-entry state declaring an on_invalid target. -/
def stTemp : DTMF.State :=
  { name := "temperature"
    description := "temperature entry"
    handlers := [hTemp]
    timeout := 5000
    on_enter := []
    on_timeout := none
    on_invalid := some "error" }

/-- Same temperature-entry state without an on_invalid target. -/
def stTempPlain : DTMF.State :=
  { stTemp with on_invalid := none }

/-- Environment for the temperature scenario: the anchored match of the
two-digit pattern, the registered temperature handler (which does not
raise) and the registered temperature transformer. -/
def envTemp : DTMF.Env :=
  { rmatch := fun p s =>
      if p = "[0-9][0-9]" then decide (s.data.length = 2) && s.data.all Char.isDigit
      else false
    handlerRegistered := fun n => n = "home_assistant.set_temperature"
    handlerThrows := fun _ _ => false
    onEnterThrows := fun _ => false
    transformers := fun n =>
      if n = "temperature_from_digits" then some Phone.transform_temperature else none }

/-- Started machine in stTemp that has already buffered one digit 9. -/
def mTemp : DTMF.DTMFStateMachine :=
  { states := [("temperature", stTemp), ("error", stError)]
    current_state := some stTemp
    buffer := [{ etype := "digit", value := "9", timestamp := 0 }]
    timeout_task := some 0
    pendingTasks := [0]
    nextTaskId := 1
    armedFor := 5000 }

/-- Started machine in stTempPlain that has already buffered one digit 9. -/
def mTempPlain : DTMF.DTMFStateMachine :=
  { mTemp with
    states := [("temperature", stTempPlain), ("error", stError)]
    current_state := some stTempPlain }

/-- A handler bound to the callback named cb, without transform, terminator
or next state. -/
def hCb : DTMF.StateHandler :=
  { htype := "pattern"
    pattern := "1"
    description := "callback"
    actionHandler := some "cb"
    actionTransform := none
    actionArgs := []
    terminator := none
    next_state := none }

/-- A state holding only hCb and no on_invalid target. -/
def stCb : DTMF.State :=
  { name := "cb_state"
    description := "callback state"
    handlers := [hCb]
    timeout := 4000
    on_enter := []
    on_timeout := none
    on_invalid := none }

/-- Started machine sitting in stCb with one armed timeout task. -/
def mCb : DTMF.DTMFStateMachine :=
  { states := [("cb_state", stCb)]
    current_state := some stCb
    buffer := []
    timeout_task := some 0
    pendingTasks := [0]
    nextTaskId := 1
    armedFor := 4000 }

/-- Environment where every pattern matches and the registered callback cb
raises. -/
def envThrow : DTMF.Env :=
  { rmatch := fun _ _ => true
    handlerRegistered := fun n => n = "cb"
    handlerThrows := fun _ _ => true
    onEnterThrows := fun _ => false
    transformers := fun _ => none }

/-- Environment where every pattern matches and the registered callback cb
returns normally. -/
def envCalm : DTMF.Env :=
  { rmatch := fun _ _ => true
    handlerRegistered := fun n => n = "cb"
    handlerThrows := fun _ _ => false
    onEnterThrows := fun _ => false
    transformers := fun _ => none }

/-- Pipeline manager with the line on hook and the stream up. -/
def pmOnHook : Phone.PhoneManager :=
  { off_hook := false
    running := true
    wsConnected := true
    dtmf_machine := DTMF.initMachine [("initial", stPlain)] }

/-- Pipeline manager with the line off hook and the stream up. -/
def pmOffHook : Phone.PhoneManager :=
  { pmOnHook with off_hook := true }

/-- A config whose single handler names an undeclared next_state target. -/
def cfgUndeclared : Config.ConfigFile :=
  { states :=
      [("initial",
        { description := some "main menu"
          handlers :=
            [{ htype := none
               pattern := some "5#"
               description := none
               actionHandler := some "timer_manager.create_timer"
               actionTransform := some "minutes_from_digits"
               actionArgs := []
               terminator := some "#"
               next_state := some "ghost" }]
          timeout := some 5000
          on_enter := []
          on_timeout := none
          on_invalid := none })]
    default_timeout := 5000 }

/-- A config whose single handler lacks the pattern key. -/
def cfgNoPattern : Config.ConfigFile :=
  { states :=
      [("initial",
        { description := none
          handlers :=
            [{ htype := none
               pattern := none
               description := none
               actionHandler := none
               actionTransform := none
               actionArgs := []
               terminator := none
               next_state := none }]
          timeout := none
          on_enter := []
          on_timeout := none
          on_invalid := none })]
    default_timeout := 5000 }

end Ex

namespace Timers

theorem countEv_append (e : TEv) (l1 l2 : List TEv) :
    countEv e (l1 ++ l2) = countEv e l1 + countEv e l2 := by
  induction l1 with
  | nil => simp [countEv]
  | cons x xs ih => simp [countEv, ih]; omega

theorem countEv_replicate (e f : TEv) (n : Nat) :
    countEv e (List.replicate n f) = if f = e then n else 0 := by
  induction n with
  | zero => simp [countEv]
  | succ n ih =>
    rw [List.replicate_succ]
    simp only [countEv, ih]
    by_cases h : f = e
    · simp [h, Nat.add_comm]
    · simp [h]

/-- Closed form of the uncancelled countdown loop: for a duration above 60
the one-minute checkpoint is spoken right after the (d - 60)-th one-second
sleep and is followed by the final 60 sleeps; otherwise the loop is sleeps
only. -/
theorem run_loop_closed (d : Nat) :
    run_loop d =
      if 60 < d then
        List.replicate (d - 60) TEv.sleep ++ TEv.speakOneMinute :: List.replicate 60 TEv.sleep
      else List.replicate d TEv.sleep := by
  induction d with
  | zero => simp [run_loop]
  | succ n ih =>
    by_cases h : n = 60
    · subst h
      decide
    · by_cases h2 : 60 < n
      · have h3 : 60 < n + 1 := by omega
        have h4 : n + 1 - 60 = (n - 60) + 1 := by omega
        simp only [run_loop, ih, if_pos h2, if_pos h3, h, if_neg, ite_false, h4,
          List.replicate_succ, List.nil_append, List.cons_append]
      · have h3 : ¬ 60 < n + 1 := by omega
        simp only [run_loop, ih, if_neg h2, if_neg h3, h, ite_false,
          List.replicate_succ, List.nil_append]

/-- C8: for every uncancelled countdown, remaining decrements once per
second; the one-minute checkpoint is spoken exactly once, immediately after
the sleep at which remaining reaches 60 (so only for durations above 60
seconds, at elapsed d - 60), and an uncancelled run marks the timer completed
and speaks the completion message exactly once, after all the sleeps. -/
theorem run_timer_checkpoints :
    (∀ d : Nat, countEv TEv.speakOneMinute (run_loop d) = if 60 < d then 1 else 0) ∧
    (∀ d : Nat, 60 < d →
      run_loop d =
        List.replicate (d - 60) TEv.sleep ++ TEv.speakOneMinute :: List.replicate 60 TEv.sleep) ∧
    (∀ t : Timer, t.cancelled = false →
      (run_timer t).1.completed = true ∧
      countEv (TEv.speakComplete t.name) (run_timer t).2 = 1 ∧
      countEv TEv.speakOneMinute (run_timer t).2 = (if 60 < t.remaining then 1 else 0) ∧
      (run_timer t).2.getLast? = some (TEv.speakComplete t.name)) := by
  have hcount : ∀ d : Nat, countEv TEv.speakOneMinute (run_loop d) = if 60 < d then 1 else 0 := by
    intro d
    rw [run_loop_closed]
    by_cases h : 60 < d
    · simp [h, countEv_append, countEv_replicate, countEv]
    · simp [h, countEv_replicate]
  have hnocomplete : ∀ (d : Nat) (nm : String),
      countEv (TEv.speakComplete nm) (run_loop d) = 0 := by
    intro d nm
    rw [run_loop_closed]
    by_cases h : 60 < d
    · simp [h, countEv_append, countEv_replicate, countEv]
    · simp [h, countEv_replicate]
  refine ⟨hcount, ?_, ?_⟩
  · intro d hd
    rw [run_loop_closed, if_pos hd]
  · intro t hc
    simp only [run_timer, hc, Bool.false_eq_true, if_false, ite_false]
    refine ⟨trivial, ?_, ?_, ?_⟩
    · rw [countEv_append]
      simp [hnocomplete, countEv]
    · rw [countEv_append]
      simp [hcount, countEv]
    · simp

/-- Witness for run_timer_checkpoints at the spec scenario of a 65-second
timer. -/
theorem run_timer_checkpoints_w :
    run_loop 65 =
      List.replicate 5 TEv.sleep ++ TEv.speakOneMinute :: List.replicate 60 TEv.sleep ∧
    (run_timer (mkTimer 0 65 none 0)).1.completed = true ∧
    countEv (TEv.speakComplete (mkTimer 0 65 none 0).name)
      (run_timer (mkTimer 0 65 none 0)).2 = 1 :=
  ⟨run_timer_checkpoints.2.1 65 (by decide),
   (run_timer_checkpoints.2.2 (mkTimer 0 65 none 0) rfl).1,
   (run_timer_checkpoints.2.2 (mkTimer 0 65 none 0) rfl).2.1⟩

/-- C7: quick_timer succeeds exactly on 1 <= minutes <= 60, failing with a
TimerError outside that range, and two successive successful calls return
timers with distinct ids. -/
theorem quick_timer_validates (tm : TimerManager) (now1 now2 : Nat) (m1 m2 : Int)
    (h1 : 1 ≤ m1 ∧ m1 ≤ 60) (h2 : 1 ≤ m2 ∧ m2 ≤ 60) :
    (∀ m : Int, exOk (quick_timer tm now1 m) = true ↔ (1 ≤ m ∧ m ≤ 60)) ∧
    (∀ tm1 t1 tr1 tm2 t2 tr2,
      quick_timer tm now1 m1 = Except.ok (tm1, t1, tr1) →
      quick_timer tm1 now2 m2 = Except.ok (tm2, t2, tr2) →
      t1.id ≠ t2.id) := by
  constructor
  · intro m
    by_cases h : 1 ≤ m ∧ m ≤ 60
    · simp [quick_timer, h, exOk]
    · simp [quick_timer, h, exOk]
  · intro tm1 t1 tr1 tm2 t2 tr2 e1 e2
    rw [quick_timer, if_pos h1] at e1
    simp only [Except.ok.injEq, Prod.mk.injEq] at e1
    obtain ⟨htm1, ht1, -⟩ := e1
    rw [quick_timer, if_pos h2] at e2
    simp only [Except.ok.injEq, Prod.mk.injEq] at e2
    obtain ⟨-, ht2, -⟩ := e2
    have i1 : t1.id = tm.nextSeed := by rw [← ht1]; rfl
    have i2 : t2.id = tm1.nextSeed := by rw [← ht2]; rfl
    have i3 : tm1.nextSeed = tm.nextSeed + 1 := by rw [← htm1]
    omega

/-- Witness for quick_timer_validates: the boundary rejections and
acceptances of the spec. -/
theorem quick_timer_validates_w :
    exOk (quick_timer (TimerManager.mk [] 0) 0 61) = false ∧
    (exOk (quick_timer (TimerManager.mk [] 0) 0 61) = true ↔
      (1 ≤ (61 : Int) ∧ (61 : Int) ≤ 60)) ∧
    (exOk (quick_timer (TimerManager.mk [] 0) 0 1) = true ↔
      (1 ≤ (1 : Int) ∧ (1 : Int) ≤ 60)) :=
  ⟨by decide,
   (quick_timer_validates (TimerManager.mk [] 0) 0 0 1 60 (by decide) (by decide)).1 61,
   (quick_timer_validates (TimerManager.mk [] 0) 0 0 1 60 (by decide) (by decide)).1 1⟩

/-- C10: cancelling a retained timer whose countdown task has already
finished succeeds, leaves the manager (and thus the cancelled flag)
untouched, and speaks no cancellation. -/
theorem cancel_completed_timer (tm : TimerManager) (tid : Nat) (timer : Timer)
    (hl : lookupTimer tm.active_timers tid = some timer)
    (hd : timer.taskDone = true) :
    cancel_timer tm tid = Except.ok (tm, [TEv.logCancelled tid]) ∧
    (∀ name, TEv.speakCancelled name ∉ [TEv.logCancelled tid]) := by
  constructor
  · simp [cancel_timer, hl, hd]
  · intro name
    simp

/-- Witness for cancel_completed_timer on a concrete completed timer still in
the retention window. -/
theorem cancel_completed_timer_w :
    cancel_timer
      (TimerManager.mk [(0, { mkTimer 0 60 none 0 with taskDone := true, completed := true })] 1)
      0 =
    Except.ok
      (TimerManager.mk [(0, { mkTimer 0 60 none 0 with taskDone := true, completed := true })] 1,
       [TEv.logCancelled 0]) :=
  (cancel_completed_timer
    (TimerManager.mk [(0, { mkTimer 0 60 none 0 with taskDone := true, completed := true })] 1)
    0 { mkTimer 0 60 none 0 with taskDone := true, completed := true }
    (by decide) (by decide)).1

end Timers

namespace DTMF

theorem cancelTimeout_pending (m : DTMFStateMachine) (h : TaskInv m) :
    (cancelTimeout m).pendingTasks = [] := by
  obtain ⟨h1, h2⟩ := h
  cases ht : m.timeout_task with
  | none =>
    have hp : m.pendingTasks = [] := by
      cases hp : m.pendingTasks with
      | nil => rfl
      | cons a l =>
        have ha := h1 a (by rw [hp]; exact List.mem_cons_self a l)
        rw [ht] at ha
        exact absurd ha (by simp)
    simp [cancelTimeout, ht, hp]
  | some t =>
    cases hp : m.pendingTasks with
    | nil => simp [cancelTimeout, ht, hp]
    | cons a l =>
      have ha := h1 a (by rw [hp]; exact List.mem_cons_self a l)
      rw [ht] at ha
      have hat : a = t := by
        injection ha with h3
        exact h3.symm
      have hl : l = [] := by
        rw [hp] at h2
        simp only [List.length_cons] at h2
        have : l.length = 0 := by omega
        exact List.eq_nil_of_length_eq_zero this
      subst hat
      subst hl
      simp [cancelTimeout, ht, hp]

theorem taskInv_arm_of_pending_nil (m : DTMFStateMachine) (tmo : Nat)
    (hp : m.pendingTasks = []) : TaskInv (armTimeout m tmo) := by
  constructor
  · intro id hid
    simp only [armTimeout, hp, List.nil_append, List.mem_singleton] at hid
    simp [armTimeout, hid]
  · simp [armTimeout, hp]

theorem armTimeout_pending_of_nil (m : DTMFStateMachine) (tmo : Nat)
    (hp : m.pendingTasks = []) :
    (armTimeout m tmo).pendingTasks = [m.nextTaskId] := by
  simp [armTimeout, hp]

theorem taskInv_transition (env : Env) (m : DTMFStateMachine) (name : String)
    (h : TaskInv m) : TaskInv (transition_to env m name).1 := by
  unfold transition_to
  cases hl : lookupState m.states name with
  | none => exact h
  | some st =>
    exact taskInv_arm_of_pending_nil _ _ (cancelTimeout_pending m h)

theorem check_machine_cases (env : Env) (m : DTMFStateMachine) (h : StateHandler) :
    (check_handler_match env m h).2.1 = m ∨
    ∃ nm, (check_handler_match env m h).2.1 = (transition_to env m nm).1 := by
  cases h1 : env.rmatch h.pattern (bufferString m.buffer) with
  | false => left; simp [check_handler_match, h1]
  | true =>
    cases h2 : truthy h.terminator &&
        !((bufferString m.buffer).endsWith (h.terminator.getD "")) with
    | true => left; simp [check_handler_match, h1, h2]
    | false =>
      rcases h3 : execAction env h (if truthy h.terminator then
          (bufferString m.buffer).dropRight (h.terminator.getD "").length
        else bufferString m.buffer) with ⟨msg, tr⟩
      cases msg with
      | some msg => left; simp [check_handler_match, h1, h2, h3]
      | none =>
        cases h4 : truthy h.next_state with
        | false => left; simp [check_handler_match, h1, h2, h3, h4]
        | true =>
          right
          refine ⟨h.next_state.getD "", ?_⟩
          simp [check_handler_match, h1, h2, h3, h4]

theorem taskInv_check (env : Env) (m : DTMFStateMachine) (h : StateHandler)
    (hi : TaskInv m) : TaskInv (check_handler_match env m h).2.1 := by
  rcases check_machine_cases env m h with h1 | ⟨nm, h1⟩
  · rw [h1]; exact hi
  · rw [h1]; exact taskInv_transition env m nm hi

theorem taskInv_runHandlers (env : Env) (hs : List StateHandler) :
    ∀ m : DTMFStateMachine, TaskInv m → TaskInv (runHandlers env m hs).2.1 := by
  induction hs with
  | nil => intro m hi; exact hi
  | cons h rest ih =>
    intro m hi
    unfold runHandlers
    rcases hc : check_handler_match env m h with ⟨b, m1, tr⟩
    have hm1 : TaskInv m1 := by
      have := taskInv_check env m h hi
      rw [hc] at this
      exact this
    cases b
    · simpa using ih m1 hm1
    · simpa using hm1

theorem taskInv_resetOrInvalid (env : Env) (r : Bool × DTMFStateMachine × List Ev)
    (hi : TaskInv r.2.1) : TaskInv (resetOrInvalid env r).1 := by
  rcases r with ⟨b, m2, tr⟩
  cases b
  · dsimp only [resetOrInvalid]
    cases m2.current_state with
    | none => exact hi
    | some cur =>
      simp only []
      by_cases hinv : truthy cur.on_invalid = true
      · rw [if_pos hinv]
        exact taskInv_transition env m2 _ hi
      · rw [if_neg hinv]
        exact hi
  · dsimp only [resetOrInvalid]
    cases m2.current_state with
    | none => exact hi
    | some cur =>
      exact taskInv_arm_of_pending_nil _ _ (cancelTimeout_pending m2 hi)

theorem taskInv_handle_event (env : Env) (m : DTMFStateMachine)
    (t v : String) (now : Nat) (hi : TaskInv m) :
    TaskInv (handle_event env m t v now).1 := by
  unfold handle_event
  cases m.current_state with
  | none => exact hi
  | some st =>
    exact taskInv_resetOrInvalid env _ (taskInv_runHandlers env st.handlers _ hi)

theorem taskInv_erase (m : DTMFStateMachine) (t : Nat) (hi : TaskInv m) :
    TaskInv { m with pendingTasks := m.pendingTasks.erase t } := by
  constructor
  · intro id hid
    exact hi.1 id (List.mem_of_mem_erase hid)
  · calc (m.pendingTasks.erase t).length ≤ m.pendingTasks.length :=
          (List.erase_sublist t m.pendingTasks).length_le
      _ ≤ 1 := hi.2

theorem taskInv_fire (env : Env) (m : DTMFStateMachine) (hi : TaskInv m) :
    TaskInv (fire_timeout env m).1 := by
  unfold fire_timeout
  cases ht : m.timeout_task with
  | none => exact hi
  | some t =>
    simp only []
    by_cases hmem : t ∈ m.pendingTasks
    · rw [if_pos hmem]
      have hie : TaskInv
          { states := m.states
            current_state := m.current_state
            buffer := m.buffer
            timeout_task := some t
            pendingTasks := m.pendingTasks.erase t
            nextTaskId := m.nextTaskId
            armedFor := m.armedFor } := by
        constructor
        · intro id hid
          have h5 := hi.1 id (List.mem_of_mem_erase hid)
          rw [ht] at h5
          exact h5
        · exact le_trans (List.erase_sublist t m.pendingTasks).length_le hi.2
      generalize hg :
        ({ states := m.states
           current_state := m.current_state
           buffer := m.buffer
           timeout_task := some t
           pendingTasks := m.pendingTasks.erase t
           nextTaskId := m.nextTaskId
           armedFor := m.armedFor } : DTMFStateMachine) = M
      rw [hg] at hie
      cases m.current_state with
      | none => exact hie
      | some st =>
        simp only []
        by_cases htm : truthy st.on_timeout = true
        · rw [if_pos htm]
          exact taskInv_transition env M _ hie
        · rw [if_neg htm]
          exact hie
    · rw [if_neg hmem]
      exact hi

theorem taskInv_applyOp (env : Env) (m : DTMFStateMachine) (op : Op)
    (hi : TaskInv m) : TaskInv (applyOp env m op) := by
  cases op with
  | ev t v now => exact taskInv_handle_event env m t v now hi
  | fire => exact taskInv_fire env m hi
  | trans name => exact taskInv_transition env m name hi

theorem taskInv_applyOps (env : Env) (ops : List Op) :
    ∀ m : DTMFStateMachine, TaskInv m → TaskInv (applyOps env m ops) := by
  induction ops with
  | nil => intro m hi; exact hi
  | cons op rest ih =>
    intro m hi
    exact ih (applyOp env m op) (taskInv_applyOp env m op hi)

theorem check_no_match (env : Env) (m : DTMFStateMachine) (h : StateHandler)
    (hh : env.rmatch h.pattern (bufferString m.buffer) = false) :
    check_handler_match env m h = (false, m, []) := by
  simp [check_handler_match, hh]

theorem runHandlers_no_match (env : Env) (hs : List StateHandler) (m : DTMFStateMachine)
    (hnm : ∀ h ∈ hs, env.rmatch h.pattern (bufferString m.buffer) = false) :
    runHandlers env m hs = (false, m, []) := by
  induction hs with
  | nil => rfl
  | cons h rest ih =>
    unfold runHandlers
    rw [check_no_match env m h (hnm h (List.mem_cons_self h rest))]
    simp only []
    rw [ih (fun h2 hm => hnm h2 (List.mem_cons_of_mem h hm))]
    simp

/-- C2 (amended): if no handler pattern of the current state matches the
extended buffer and the state declares no on_invalid target, handle_event
only appends the symbol: same state, same timeout task, empty trace. (When
the state does declare an on_invalid target, a non-matching symbol instead
transitions there; see invalid_target_entered_on_miss.) -/
theorem no_match_only_buffers (env : Env) (m : DTMFStateMachine) (st : State)
    (etype value : String) (now : Nat)
    (hcs : m.current_state = some st)
    (hnm : ∀ h ∈ st.handlers,
      env.rmatch h.pattern (bufferString (appendEvent m etype value now).buffer) = false)
    (hinv : truthy st.on_invalid = false) :
    handle_event env m etype value now = (appendEvent m etype value now, []) := by
  unfold handle_event
  rw [hcs]
  simp only []
  rw [runHandlers_no_match env st.handlers _ (fun h hm => hnm h hm)]
  unfold resetOrInvalid
  simp only []
  have hc2 : (appendEvent m etype value now).current_state = some st := hcs
  rw [hc2]
  simp [hinv]

/-- Witness for no_match_only_buffers on a concrete started machine with no
on_invalid target. -/
theorem no_match_only_buffers_w :
    handle_event Ex.envNone Ex.mPlain "digit" "1" 0 =
      (appendEvent Ex.mPlain "digit" "1" 0, []) :=
  no_match_only_buffers Ex.envNone Ex.mPlain Ex.stPlain "digit" "1" 0 rfl (by decide) rfl

/-- C2 counterexample: in a state with a declared on_invalid target, a
non-matching symbol does cause a transition away from the current state, so
the on_invalid state is reachable without any handler naming it as
next_state, and the state is not unchanged. -/
theorem invalid_target_entered_on_miss :
    (handle_event Ex.envNone Ex.mInv "digit" "1" 0).1.current_state = some Ex.stError ∧
    Ex.stError ≠ Ex.stInitInv ∧
    (handle_event Ex.envNone Ex.mInv "digit" "1" 0).2 = [Ev.logTransitioned "error"] := by
  decide

theorem truthy_none : truthy none = false := rfl

theorem invoked_not_in_runOnEnter (env : Env) (names : List String) (n : String)
    (a : Val) (as : List (String × String)) : Ev.invoked n a as ∉ runOnEnter env names := by
  induction names with
  | nil => simp [runOnEnter]
  | cons nm rest ih =>
    unfold runOnEnter
    intro hmem
    rcases List.mem_append.mp hmem with h1 | h2
    · split at h1
      · split at h1 <;> simp at h1
      · simp at h1
    · exact ih h2

theorem invoked_not_in_transition (env : Env) (m : DTMFStateMachine) (nm : String)
    (n : String) (a : Val) (as : List (String × String)) :
    Ev.invoked n a as ∉ (transition_to env m nm).2 := by
  intro hmem
  unfold transition_to at hmem
  cases hls : lookupState m.states nm
  · rw [hls] at hmem
    simp at hmem
  · rw [hls] at hmem
    simp only [] at hmem
    rcases List.mem_append.mp hmem with h1 | h2
    · exact invoked_not_in_runOnEnter env _ n a as h1
    · simp at h2

/-- C5 (amended): when the single handler of the current state matches and
its bound callback returns normally, the dwell timeout is reset: the old
task is cancelled and a fresh one armed for the current state. When the
callback raises, the raise is logged and contained inside the match check,
but the match then counts as failed, so the timeout is not reset and (with
no on_invalid target) only the buffered symbol changes. -/
theorem match_resets_timeout_unless_callback_throws
    (env : Env) (m : DTMFStateMachine) (st : State) (h : StateHandler) (hn : String)
    (etype value : String) (now : Nat)
    (hcs : m.current_state = some st)
    (hhs : st.handlers = [h])
    (hterm : h.terminator = none)
    (hnext : h.next_state = none)
    (hinv : st.on_invalid = none)
    (hpat : env.rmatch h.pattern (bufferString (appendEvent m etype value now).buffer) = true)
    (hhn : h.actionHandler = some hn)
    (hreg : env.handlerRegistered hn = true)
    (htn : h.actionTransform = none) :
    (env.handlerThrows hn
        (Val.str (bufferString (appendEvent m etype value now).buffer)) = false →
      handle_event env m etype value now =
        (armTimeout (cancelTimeout (appendEvent m etype value now)) st.timeout,
         [Ev.invoked hn (Val.str (bufferString (appendEvent m etype value now).buffer))
            h.actionArgs])) ∧
    (env.handlerThrows hn
        (Val.str (bufferString (appendEvent m etype value now).buffer)) = true →
      handle_event env m etype value now =
        (appendEvent m etype value now,
         [Ev.invoked hn (Val.str (bufferString (appendEvent m etype value now).buffer))
            h.actionArgs,
          Ev.logCheckError "handler raised"])) := by
  have hc2 : (appendEvent m etype value now).current_state = some st := hcs
  constructor <;> intro hth <;>
    simp [handle_event, runHandlers, resetOrInvalid, check_handler_match, execAction,
      callHandler, hcs, hc2, hhs, hpat, hterm, htn, hhn, hreg, hth, hnext, hinv, truthy]

/-- Witness for match_resets_timeout_unless_callback_throws with a concrete
matching handler whose callback returns normally. -/
theorem match_resets_timeout_w :
    handle_event Ex.envCalm Ex.mCb "digit" "1" 0 =
      (armTimeout (cancelTimeout (appendEvent Ex.mCb "digit" "1" 0)) Ex.stCb.timeout,
       [Ev.invoked "cb" (Val.str "1") []]) :=
  (match_resets_timeout_unless_callback_throws Ex.envCalm Ex.mCb Ex.stCb Ex.hCb "cb"
    "digit" "1" 0 rfl rfl rfl rfl rfl (by decide) rfl (by decide) rfl).1 (by decide)

/-- C5 counterexample: with the single handler of the state matching and its
registered callback raising, handle_event keeps the old timeout task (id 0)
and creates no new task, so the dwell timeout is not reset on every match. -/
theorem throwing_callback_skips_reset :
    (handle_event Ex.envThrow Ex.mCb "digit" "1" 0).1 = appendEvent Ex.mCb "digit" "1" 0 ∧
    (handle_event Ex.envThrow Ex.mCb "digit" "1" 0).1.timeout_task = some 0 ∧
    (handle_event Ex.envThrow Ex.mCb "digit" "1" 0).1.nextTaskId = Ex.mCb.nextTaskId ∧
    Ev.logCheckError "handler raised" ∈ (handle_event Ex.envThrow Ex.mCb "digit" "1" 0).2 := by
  decide

/-- C4 (amended): when a matched handler carries a registered transform that
fails, the failure is logged, the bound handler is not invoked and the
handler yields no transition; handle_event then falls through to the
invalid-input rule, so with no truthy on_invalid target the machine keeps
its state with only the buffered symbol added, while a truthy on_invalid
target is entered. -/
theorem transform_failure_skips_handler
    (env : Env) (m : DTMFStateMachine) (st : State) (h : StateHandler)
    (hn tn : String) (f : String → Except String Int) (msg : String)
    (etype value : String) (now : Nat)
    (hcs : m.current_state = some st)
    (hhs : st.handlers = [h])
    (hterm : h.terminator = none)
    (hpat : env.rmatch h.pattern (bufferString (appendEvent m etype value now).buffer) = true)
    (hhn : h.actionHandler = some hn)
    (hreg : env.handlerRegistered hn = true)
    (htn : h.actionTransform = some tn)
    (hf : env.transformers tn = some f)
    (hfail : f (bufferString (appendEvent m etype value now).buffer) = Except.error msg) :
    (∀ n a as, Ev.invoked n a as ∉ (handle_event env m etype value now).2) ∧
    Ev.logCheckError msg ∈ (handle_event env m etype value now).2 ∧
    (truthy st.on_invalid = false →
      handle_event env m etype value now =
        (appendEvent m etype value now, [Ev.logCheckError msg])) ∧
    (truthy st.on_invalid = true →
      handle_event env m etype value now =
        ((transition_to env (appendEvent m etype value now) (st.on_invalid.getD "")).1,
         Ev.logCheckError msg ::
           (transition_to env (appendEvent m etype value now) (st.on_invalid.getD "")).2)) := by
  have hc2 : (appendEvent m etype value now).current_state = some st := hcs
  have hres : ∀ hiv : Bool, truthy st.on_invalid = hiv →
      handle_event env m etype value now =
        (if hiv then
          ((transition_to env (appendEvent m etype value now) (st.on_invalid.getD "")).1,
           Ev.logCheckError msg ::
             (transition_to env (appendEvent m etype value now) (st.on_invalid.getD "")).2)
        else (appendEvent m etype value now, [Ev.logCheckError msg])) := by
    intro hiv hivh
    cases hiv <;>
      simp [handle_event, runHandlers, resetOrInvalid, check_handler_match, execAction,
        callHandler, hcs, hc2, hhs, hpat, hterm, htn, hhn, hreg, hf, hfail, hivh,
        truthy_none]
  refine ⟨?_, ?_, ?_, ?_⟩
  · intro n a as
    cases hiv : truthy st.on_invalid
    · rw [hres false hiv]
      simp
    · rw [hres true hiv]
      simp only [if_true, ite_true]
      intro hmem
      rcases List.mem_cons.mp hmem with h1 | h2
      · cases h1
      · exact invoked_not_in_transition env _ _ n a as h2
  · cases hiv : truthy st.on_invalid
    · rw [hres false hiv]
      simp
    · rw [hres true hiv]
      simp
  · intro hiv
    rw [hres false hiv]
    simp
  · intro hiv
    rw [hres true hiv]
    simp

/-- Witness for transform_failure_skips_handler: the documented temperature
scenario (digits 99 against the 60-85 range) in a state without on_invalid
target. -/
theorem transform_failure_skips_handler_w :
    handle_event Ex.envTemp Ex.mTempPlain "digit" "9" 0 =
      (appendEvent Ex.mTempPlain "digit" "9" 0,
       [Ev.logCheckError "Temperature must be between 60 and 85"]) :=
  (transform_failure_skips_handler Ex.envTemp Ex.mTempPlain Ex.stTempPlain Ex.hTemp
    "home_assistant.set_temperature" "temperature_from_digits" Phone.transform_temperature
    "Temperature must be between 60 and 85" "digit" "9" 0
    rfl rfl rfl (by decide) rfl (by decide) rfl rfl (by decide)).2.2.1 rfl

/-- C4 counterexample: the same failing temperature transform in a state
that declares an on_invalid target makes the engine leave its current state,
so a transform failure does not always leave the machine in place. -/
theorem transform_failure_transitions :
    (handle_event Ex.envTemp Ex.mTemp "digit" "9" 0).1.current_state = some Ex.stError ∧
    (handle_event Ex.envTemp Ex.mTemp "digit" "9" 0).2 =
      [Ev.logCheckError "Temperature must be between 60 and 85",
       Ev.logTransitioned "error"] ∧
    Ex.stError ≠ Ex.stTemp := by
  decide

/-- C3: starting from a freshly constructed machine over any loaded states
table, after start and any sequence of handle_event calls, transitions and
timeout firings, at most one dwell-timeout task is pending. -/
theorem at_most_one_timeout (env : Env) (states : List (String × State)) (ops : List Op) :
    (applyOps env (start env (initMachine states)).1 ops).pendingTasks.length ≤ 1 := by
  have h0 : TaskInv (initMachine states) := by
    constructor
    · intro id hid
      simp [initMachine] at hid
    · simp [initMachine]
  have h1 : TaskInv (start env (initMachine states)).1 :=
    taskInv_transition env (initMachine states) "initial" h0
  exact (taskInv_applyOps env ops _ h1).2

end DTMF

namespace Phone

/-- C9: _handle_dtmf forwards a symbol to the engine exactly when the line
is off hook, classifying star, hash and digits; a digit arriving on hook is
logged and dropped with the whole manager (hence the engine) unchanged. -/
theorem dtmf_gating (env : DTMF.Env) (pm : PhoneManager) (digit : String) (now : Nat) :
    (pm.off_hook = false →
      handle_dtmf env pm digit now = (pm, [PEv.logWarnOnHook])) ∧
    (pm.off_hook = true →
      handle_dtmf env pm digit now =
        ({ pm with dtmf_machine :=
            (DTMF.handle_event env pm.dtmf_machine (classifyDigit digit) digit now).1 },
         [PEv.forwarded (classifyDigit digit) digit])) ∧
    (digit = "*" → classifyDigit digit = "star") ∧
    (digit = "#" → classifyDigit digit = "hash") ∧
    (digit ≠ "*" → digit ≠ "#" → classifyDigit digit = "digit") := by
  refine ⟨?_, ?_, ?_, ?_, ?_⟩
  · intro hoff
    simp [handle_dtmf, hoff]
  · intro hon
    simp [handle_dtmf, hon]
  · intro h
    simp [classifyDigit, h]
  · intro h
    simp [classifyDigit, h]
  · intro h1 h2
    simp [classifyDigit, h1, h2]

/-- Witness for dtmf_gating: a digit received on hook is dropped, and the
star symbol is classified as star. -/
theorem dtmf_gating_w :
    handle_dtmf Ex.envNone Ex.pmOnHook "5" 0 = (Ex.pmOnHook, [PEv.logWarnOnHook]) ∧
    classifyDigit "*" = "star" :=
  ⟨(dtmf_gating Ex.envNone Ex.pmOnHook "5" 0).1 rfl,
   (dtmf_gating Ex.envNone Ex.pmOnHook "*" 0).2.2.1 rfl⟩

theorem handle_phone_event_keeps_conn (env : DTMF.Env) (pm : PhoneManager)
    (ev : PhoneEvent) (now : Nat) :
    (handle_phone_event env pm ev now).1.running = pm.running ∧
    (handle_phone_event env pm ev now).1.wsConnected = pm.wsConnected := by
  unfold handle_phone_event handle_off_hook handle_on_hook handle_dtmf
  by_cases h1 : ev.etype = "off_hook" <;> by_cases h2 : ev.etype = "on_hook" <;>
    by_cases h3 : ev.etype = "dtmf" <;> by_cases h4 : pm.off_hook = true <;>
      simp [h1, h2, h3, h4]

theorem event_loop_no_closed (env : DTMF.Env) :
    ∀ (stream : List StreamItem) (pm : PhoneManager),
    pm.running = true → pm.wsConnected = true → StreamItem.closed ∉ stream →
    (event_loop env pm stream).1.running = true ∧
    (event_loop env pm stream).1.wsConnected = true := by
  intro stream
  induction stream with
  | nil =>
    intro pm hr hw _
    exact ⟨hr, hw⟩
  | cons item rest ih =>
    intro pm hr hw hmem
    have hrest : StreamItem.closed ∉ rest := fun hm => hmem (List.mem_cons_of_mem item hm)
    cases item with
    | closed => exact absurd (List.mem_cons_self _ _) hmem
    | badMsg =>
      unfold event_loop
      rw [hr, hw]
      simp only [Bool.and_self, if_true, ite_true]
      exact ih pm hr hw hrest
    | msg ev =>
      unfold event_loop
      rw [hr, hw]
      simp only [Bool.and_self, if_true, ite_true]
      have hk := handle_phone_event_keeps_conn env pm ev 0
      exact ih (handle_phone_event env pm ev 0).1 (hk.1.trans hr) (hk.2.trans hw) hrest

/-- C6 (amended): while running and connected, the loop keeps reading after
every message or per-iteration error (errors only log and back off a fixed
one second on the same connection, so a closure-free stream is consumed with
the pipeline still live); a ConnectionClosed raise instead disconnects
permanently: _running and the socket are cleared and the remainder of the
stream is never read. No reconnection is attempted. -/
theorem event_loop_closure_policy (env : DTMF.Env) (pm : PhoneManager)
    (stream : List StreamItem) (hr : pm.running = true) (hw : pm.wsConnected = true) :
    (StreamItem.closed ∉ stream →
      (event_loop env pm stream).1.running = true ∧
      (event_loop env pm stream).1.wsConnected = true) ∧
    (∀ rest, event_loop env pm (StreamItem.closed :: rest) =
      ({ pm with running := false, wsConnected := false },
       [PEv.logConnClosed, PEv.logDisconnected])) ∧
    (∀ rest, (event_loop env pm (StreamItem.badMsg :: rest)).2.take 2 =
      [PEv.logLoopError, PEv.backoffSleep 1]) := by
  refine ⟨fun hmem => event_loop_no_closed env stream pm hr hw hmem, ?_, ?_⟩
  · intro rest
    unfold event_loop
    rw [hr, hw]
    simp
  · intro rest
    unfold event_loop
    rw [hr, hw]
    simp

/-- Witness for event_loop_closure_policy at a concrete manager and a
one-item stream ending in closure. -/
theorem event_loop_closure_policy_w :
    event_loop Ex.envNone Ex.pmOnHook [StreamItem.closed] =
      ({ Ex.pmOnHook with running := false, wsConnected := false },
       [PEv.logConnClosed, PEv.logDisconnected]) :=
  (event_loop_closure_policy Ex.envNone Ex.pmOnHook [] rfl rfl).2.1 []

/-- C6 counterexample: after a ConnectionClosed raise the pipeline stops for
good: _running is cleared, the socket dropped, and a message sitting behind
the closure is never handled, so the loop does not wait and retry. -/
theorem stream_closure_stops_pipeline :
    (event_loop Ex.envNone Ex.pmOnHook
      [StreamItem.closed, StreamItem.msg { etype := "dtmf", digit := "5" }]).1.running
      = false ∧
    (event_loop Ex.envNone Ex.pmOnHook
      [StreamItem.closed, StreamItem.msg { etype := "dtmf", digit := "5" }]).2 =
      [PEv.logConnClosed, PEv.logDisconnected] := by
  decide

end Phone

namespace Config

theorem loadHandlers_ok (l : List HandlerConfig) :
    exOk (loadHandlers l) = l.all (fun hc => hc.pattern.isSome) := by
  induction l with
  | nil => rfl
  | cons hc rest ih =>
    cases hp : hc.pattern with
    | none => simp [loadHandlers, loadHandler, hp, exOk]
    | some p =>
      rw [List.all_cons]
      cases hr : loadHandlers rest with
      | error e =>
        rw [hr] at ih
        simp [loadHandlers, loadHandler, hp, hr, exOk] at ih ⊢
        exact ih
      | ok hs =>
        rw [hr] at ih
        simp [loadHandlers, loadHandler, hp, hr, exOk] at ih ⊢
        exact ih

theorem loadState_ok (cfg : ConfigFile) (name : String) (sc : StateConfig) :
    exOk (loadState cfg name sc) = sc.handlers.all (fun hc => hc.pattern.isSome) := by
  rw [← loadHandlers_ok]
  cases hr : loadHandlers sc.handlers <;> simp [loadState, hr, exOk]

theorem loadStates_ok (cfg : ConfigFile) (l : List (String × StateConfig)) :
    exOk (loadStates cfg l) =
      l.all (fun p => p.2.handlers.all (fun hc => hc.pattern.isSome)) := by
  induction l with
  | nil => rfl
  | cons p rest ih =>
    rcases p with ⟨name, sc⟩
    have h1 := loadState_ok cfg name sc
    rw [List.all_cons]
    cases hs : loadState cfg name sc with
    | error e =>
      rw [hs] at h1
      simp only [exOk] at h1
      simp only [loadStates, hs, exOk]
      rw [← h1]
      simp
    | ok st =>
      rw [hs] at h1
      simp only [exOk] at h1
      cases hr : loadStates cfg rest with
      | error e =>
        rw [hr] at ih
        simp only [exOk] at ih
        simp only [loadStates, hs, hr, exOk]
        rw [← h1, ← ih]
        simp
      | ok sts =>
        rw [hr] at ih
        simp only [exOk] at ih
        simp only [loadStates, hs, hr, exOk]
        rw [← h1, ← ih]
        simp

/-- C1 (amended): _load_config does not validate the next_state, on_timeout
or on_invalid targets; loading succeeds exactly when every handler entry
carries a pattern key, and on failure the underlying exception is re-raised
(there is no dedicated configuration-error type in the code). -/
theorem load_config_ok_iff (cfg : ConfigFile) :
    exOk (load_config cfg) = true ↔ everyHandlerHasPattern cfg = true := by
  rw [load_config, loadStates_ok cfg cfg.states, everyHandlerHasPattern]

/-- C1 counterexample: a state table whose only handler names an undeclared
next_state target loads successfully, while one lacking a pattern key fails,
so load does not check target declaredness. -/
theorem load_accepts_undeclared_targets :
    allTargetsDeclared Ex.cfgUndeclared = false ∧
    exOk (load_config Ex.cfgUndeclared) = true ∧
    exOk (load_config Ex.cfgNoPattern) = false := by
  decide

end Config

end Iroh
